import Mathlib

/-!
PROMO.DINASTYBET: the reservation service of `backend/server.js`.

A shallow embedding of the Express server and of the part of PostgreSQL it
talks to.  The table `reservas` is a list of rows in insertion order; every
storage call takes the outcome of the transport (`falla`) as an argument, and
an `INSERT` takes the value of `NOW()` as an argument.  The engine checks the
parameters of an `INSERT` when it binds them, before the statement runs.  JavaScript numbers that
the code computes with are integers or `NaN`; `NaN` is `none`.
-/

namespace Promo

/-! ## JavaScript numbers and arrays -/

/-- A JavaScript number as the server meets it: an integer, or `NaN` (`none`). -/
abbrev JsNum := Option Int

/-- The JavaScript `a + b`. -/
def jsAdd (a b : JsNum) : JsNum :=
  match a, b with
  | some x, some y => some (x + y)
  | _, _ => none

/-- The JavaScript `a - b`. -/
def jsSub (a b : JsNum) : JsNum :=
  match a, b with
  | some x, some y => some (x - y)
  | _, _ => none

/-- The JavaScript `a % b`: the remainder takes the sign of the dividend, and a
zero divisor gives `NaN`. -/
def jsRem (a b : JsNum) : JsNum :=
  match a, b with
  | some x, some y => if y = 0 then none else some (Int.tmod x y)
  | _, _ => none

/-- The JavaScript `xs[i]`: `undefined` (`none`) unless `i` is an index of `xs`. -/
def jsIndex {α : Type} (xs : List α) (i : JsNum) : Option α :=
  match i with
  | some k => if 0 ≤ k then xs[k.toNat]? else none
  | none => none

/-- The `xs.length` of a JavaScript array. -/
def jsLength {α : Type} (xs : List α) : JsNum := some (xs.length : Int)

/-- One `Set.prototype.add`: a value already present is not added again. -/
def setAdd (acc : List Int) (x : Int) : List Int :=
  if x ∈ acc then acc else acc ++ [x]

/-- The elements of `new Set(xs)` in iteration order, which is what
`Array.from(new Set(xs))` holds: the first occurrence of every value. -/
def arrayFromSet (xs : List Int) : List Int := xs.foldl setAdd []

/-- The comparator `(a,b)=>a-b` of line 79. -/
def comparar (a b : Int) : Int := a - b

/-- The call `.sort((a,b)=>a-b)`: `a` stays before `b` when the comparator is not
positive. -/
def sortAsc (xs : List Int) : List Int :=
  xs.insertionSort (fun a b => comparar a b ≤ 0)

/-! ## The table `reservas` and the storage engine -/

/-- A row of `reservas` (lines 21-27): `numero INT UNIQUE NOT NULL`,
`telefono TEXT`, `cajero TEXT`, `fecha TIMESTAMP DEFAULT NOW()`.  The surrogate
key `id SERIAL` is drawn from a sequence of the engine and read by no statement
of the server; the position of a row in the table stands for it. -/
structure Reserva where
  numero : Int
  telefono : Option String
  cajero : Option String
  fecha : Nat
deriving DecidableEq, Repr

/-- The table `reservas`: its rows in insertion order. -/
abbrev Tabla := List Reserva

/-- A storage call that does not reach the engine, or that the engine cuts
short before it runs the statement. -/
inductive Falla where
  | connRefused
  | connReset
  | adminShutdown
deriving DecidableEq, Repr

/-- The errors `pool.query` rejects with. -/
inductive PgError where
  | falla (f : Falla)
  | uniqueViolation
  | numericValueOutOfRange
  | invalidTextRepresentation
  | characterNotInRepertoire
deriving DecidableEq, Repr

/-- The `err.code` of an error: the SQLSTATE of the engine, or the code of the
socket error. -/
def PgError.code : PgError → String
  | .falla .connRefused => "ECONNREFUSED"
  | .falla .connReset => "ECONNRESET"
  | .falla .adminShutdown => "57P01"
  | .uniqueViolation => "23505"
  | .numericValueOutOfRange => "22003"
  | .invalidTextRepresentation => "22P02"
  | .characterNotInRepertoire => "22021"

/-- The least value of the column type `INT`. -/
def int4Min : Int := -2147483648

/-- The greatest value of the column type `INT`. -/
def int4Max : Int := 2147483647

/-- The numbers held by the table. -/
def numeros (t : Tabla) : List Int := t.map (fun r => r.numero)

/-- The bound from which JavaScript writes a number in exponent form: the driver
sends `String(n)`, which is `1e+21` for `n = 10^21`, a text that is no integer. -/
def jsExponente : Int := 1000000000000000000000

/-- A JavaScript string is accepted as a parameter of type `TEXT`: the driver
sends it as UTF-8, and the engine refuses at bind a text that holds the
character U+0000. -/
def textoValido (s : String) : Bool := !(s.data.contains (Char.ofNat 0))

/-- The parameter `$3`: `undefined` is sent as `NULL`, a string as `TEXT`. -/
def cajeroValido (cajero : Option String) : Bool :=
  match cajero with
  | none => true
  | some c => textoValido c

/-- The statement `INSERT INTO reservas (numero, telefono, cajero) VALUES ($1,$2,$3)`
(lines 45-48).  The engine reads the parameters in order when it binds them:
`NaN` and a number in exponent form are texts that are no integer, a value
outside `INT` is refused, and so is a text with U+0000.  Then the statement
runs: a number already in the table violates `UNIQUE`; otherwise one row is
appended, with `fecha` the engine's `NOW()`. -/
def pgInsert (falla : Option Falla) (ahora : Nat) (t : Tabla)
    (numero : JsNum) (telefono : String) (cajero : Option String) :
    Except PgError Tabla :=
  match falla with
  | some f => .error (.falla f)
  | none =>
    match numero with
    | none => .error .invalidTextRepresentation
    | some n =>
      if n ≤ -jsExponente ∨ jsExponente ≤ n then .error .invalidTextRepresentation
      else if n < int4Min ∨ int4Max < n then .error .numericValueOutOfRange
      else if textoValido telefono = false then .error .characterNotInRepertoire
      else if cajeroValido cajero = false then .error .characterNotInRepertoire
      else if n ∈ numeros t then .error .uniqueViolation
      else .ok (t ++ [{ numero := n, telefono := some telefono, cajero := cajero,
                        fecha := ahora }])

/-- A row of the result of `SELECT numero FROM reservas`. -/
structure FilaNumero where
  numero : Int
deriving DecidableEq, Repr

/-- The statement `SELECT numero FROM reservas` (line 38). -/
def pgSelectNumero (falla : Option Falla) (t : Tabla) :
    Except PgError (List FilaNumero) :=
  match falla with
  | some f => .error (.falla f)
  | none => .ok (t.map (fun r => { numero := r.numero }))

/-- What `ORDER BY fecha DESC` asks of the rows it returns: they are the rows of
the table, and no row comes before one with a later `fecha`.  Rows with equal
`fecha` may come in either order: the statement names no further key. -/
def OrdenFechaDesc (t orden : Tabla) : Prop :=
  orden.Perm t ∧ orden.Sorted (fun a b => b.fecha ≤ a.fecha)

instance (t orden : Tabla) : Decidable (OrdenFechaDesc t orden) := by
  unfold OrdenFechaDesc; infer_instance

/-! ## Configuration and process state -/

/-- The constants of lines 12-13. -/
structure Config where
  numerosFijos : List Int
  cajeros : List String
deriving DecidableEq, Repr

/-- The configuration of the repository. -/
def config : Config :=
  { numerosFijos := [73, 44, 87, 93], cajeros := ["+5491123365501"] }

/-- The mutable state: the table, and `indiceCajero` (line 14). -/
structure Estado where
  tabla : Tabla
  indiceCajero : JsNum
deriving DecidableEq, Repr

/-- The state at process start: an empty table, `indiceCajero = 0`. -/
def inicial : Estado := { tabla := [], indiceCajero := some 0 }

/-! ## Helpers (lines 36-71) -/

/-- The function `obtenerReservados` (lines 37-40). -/
def obtenerReservados (falla : Option Falla) (t : Tabla) : Except PgError (List Int) :=
  match pgSelectNumero falla t with
  | .ok rows => .ok (rows.map (fun r => r.numero))
  | .error e => .error e

/-- The object `reservarNumero` returns: `ok`, and `msg` when it is set. -/
structure Resultado where
  ok : Bool
  msg : Option String
deriving DecidableEq, Repr

/-- The result of a successful reservation. -/
def resultadoOk : Resultado := { ok := true, msg := none }

/-- The result of a reservation refused by `UNIQUE`. -/
def resultadoOcupado : Resultado := { ok := false, msg := some "Número ya ocupado" }

/-- The result of a reservation that failed for another reason. -/
def resultadoFallo : Resultado := { ok := false, msg := none }

/-- The function `reservarNumero` (lines 43-57), with the table after the call. -/
def reservarNumero (falla : Option Falla) (ahora : Nat) (t : Tabla)
    (numero : JsNum) (telefono : String) (cajero : Option String) :
    Resultado × Tabla :=
  match pgInsert falla ahora t numero telefono cajero with
  | .ok t' => (resultadoOk, t')
  | .error err =>
    if err.code = "23505" then (resultadoOcupado, t)
    else (resultadoFallo, t)

/-- The object `obtenerStats` returns. -/
structure Stats where
  total : Nat
  ultimos : List Int
deriving DecidableEq, Repr

/-- The function `obtenerStats` (lines 60-71), when both statements complete:
`s` is a value it may return on the table `t`.  `LIMIT 5` keeps the first five
rows of the order the engine chose, and `COUNT(*)` is the number of rows. -/
def EsStats (t : Tabla) (s : Stats) : Prop :=
  ∃ orden : Tabla, OrdenFechaDesc t orden ∧
    s = { total := t.length, ultimos := numeros (orden.take 5) }

/-! ## Routes (lines 75-117) -/

/-- The response of `GET /api/bloqueados`. -/
structure RespBloqueados where
  status : Nat
  bloqueados : List Int
deriving DecidableEq, Repr

/-- The value of `bloqueados` on line 79. -/
def unionBloqueados (numerosFijos reservados : List Int) : List Int :=
  sortAsc (arrayFromSet (numerosFijos ++ reservados))

/-- The route `GET /api/bloqueados` (lines 76-85). -/
def getBloqueados (cfg : Config) (falla : Option Falla) (t : Tabla) : RespBloqueados :=
  match obtenerReservados falla t with
  | .ok reservados =>
    { status := 200, bloqueados := unionBloqueados cfg.numerosFijos reservados }
  | .error _ => { status := 500, bloqueados := cfg.numerosFijos }

/-- An HTTP status of the classes 4xx and 5xx reports an error. -/
def esError (status : Nat) : Bool := decide (400 ≤ status)

/-- The route `GET /api/cajero` (lines 88-92): the cashier sent, and the new
`indiceCajero`. -/
def getCajero (cfg : Config) (indiceCajero : JsNum) : Option String × JsNum :=
  let numero := jsIndex cfg.cajeros indiceCajero
  (numero, jsRem (jsAdd indiceCajero (some 1)) (jsLength cfg.cajeros))

/-- The cashier of line 98. -/
def cajeroAnterior (cfg : Config) (indiceCajero : JsNum) : Option String :=
  jsIndex cfg.cajeros
    (jsRem (jsAdd (jsSub indiceCajero (some 1)) (jsLength cfg.cajeros))
      (jsLength cfg.cajeros))

/-- The value of `String(req.body.telefono || 'sin-dato')` (line 97): an absent
or empty `telefono` becomes the sentinel. -/
def telefonoDe (telefono : Option String) : String :=
  match telefono with
  | none => "sin-dato"
  | some x => if x = "" then "sin-dato" else x

/-- The body of the response of `POST /api/registrar`. -/
structure RespRegistrar where
  ok : Bool
  mensaje : Option String
deriving DecidableEq, Repr

/-- The route `POST /api/registrar` (lines 95-103).  `numero` is the value of
`parseInt(req.body.numero, 10)`. -/
def postRegistrar (cfg : Config) (falla : Option Falla) (ahora : Nat) (s : Estado)
    (numero : JsNum) (telefono : Option String) : RespRegistrar × Estado :=
  let tel := telefonoDe telefono
  let cajero := cajeroAnterior cfg s.indiceCajero
  let r := reservarNumero falla ahora s.tabla numero tel cajero
  if !r.1.ok then ({ ok := false, mensaje := r.1.msg }, { s with tabla := r.2 })
  else ({ ok := true, mensaje := none }, { s with tabla := r.2 })

/-- The route `GET /api/ganador` (lines 106-108). -/
def getGanador : Int := 93

/-! ## The service as a transition system -/

/-- A request, with what the environment decides while it is served. -/
inductive Peticion where
  | bloqueados (falla : Option Falla)
  | cajero
  | registrar (falla : Option Falla) (ahora : Nat) (numero : JsNum)
      (telefono : Option String)
  | ganador
  | stats
deriving DecidableEq, Repr

/-- The state after a request is served. -/
def paso (cfg : Config) (s : Estado) : Peticion → Estado
  | .bloqueados _ => s
  | .cajero => { s with indiceCajero := (getCajero cfg s.indiceCajero).2 }
  | .registrar falla ahora numero telefono =>
    (postRegistrar cfg falla ahora s numero telefono).2
  | .ganador => s
  | .stats => s

/-- The state after a sequence of requests, from `s`. -/
def correr (cfg : Config) (s : Estado) (ps : List Peticion) : Estado :=
  ps.foldl (paso cfg) s

/-- The cashiers sent by `k` consecutive requests `GET /api/cajero` from the
index `i`, in the order of the requests, and the index after them. -/
def rotar (cfg : Config) : Nat → JsNum → List (Option String) × JsNum
  | 0, i => ([], i)
  | k + 1, i =>
    let r := getCajero cfg i
    let resto := rotar cfg k r.2
    (r.1 :: resto.1, resto.2)

/-- The arguments of one call of `reservarNumero`, with what the environment
decides while the call is served. -/
structure Llamada where
  falla : Option Falla
  ahora : Nat
  numero : JsNum
  telefono : String
  cajero : Option String
deriving DecidableEq, Repr

/-- The row that a successful call `c` for the number `n` appends. -/
def filaDe (c : Llamada) (n : Int) : Reserva :=
  { numero := n, telefono := some c.telefono, cajero := c.cajero, fecha := c.ahora }

/-- One call of `reservarNumero` on the table `t`. -/
def ejecutar (t : Tabla) (c : Llamada) : Resultado × Tabla :=
  reservarNumero c.falla c.ahora t c.numero c.telefono c.cajero

/-- Calls of `reservarNumero` one after the other: their results in order, and
the table after the last. -/
def reservarTodos : Tabla → List Llamada → List Resultado × Tabla
  | t, [] => ([], t)
  | t, c :: cs =>
    let r := ejecutar t c
    let resto := reservarTodos r.2 cs
    (r.1 :: resto.1, resto.2)

/-- Two calls of `reservarNumero` in flight at once.  A call suspends only at its
`await pool.query`, and the engine runs the two `INSERT` statements one after
the other: an interleaving is the choice of the statement that runs first.  The
value is the result of `a`, the result of `b`, and the table after both. -/
def dosReservas (primeroA : Bool) (t : Tabla) (a b : Llamada) :
    Resultado × Resultado × Tabla :=
  if primeroA then
    let ra := ejecutar t a
    let rb := ejecutar ra.2 b
    (ra.1, rb.1, rb.2)
  else
    let rb := ejecutar t b
    let ra := ejecutar rb.2 a
    (ra.1, rb.1, ra.2)

/-- Every row of the table holds a value of the column type `INT`. -/
def filasInt4 (t : Tabla) : Prop :=
  ∀ r ∈ t, ¬ (r.numero < int4Min ∨ int4Max < r.numero)

instance (t : Tabla) : Decidable (filasInt4 t) := by
  unfold filasInt4; infer_instance

/-- Seven calls of `reservarNumero` for the numbers 1 to 7, served at the
instants 1 to 7. -/
def sieteLlamadas : List Llamada :=
  [{ falla := none, ahora := 1, numero := some 1, telefono := "a", cajero := none },
   { falla := none, ahora := 2, numero := some 2, telefono := "b", cajero := none },
   { falla := none, ahora := 3, numero := some 3, telefono := "c", cajero := none },
   { falla := none, ahora := 4, numero := some 4, telefono := "d", cajero := none },
   { falla := none, ahora := 5, numero := some 5, telefono := "e", cajero := none },
   { falla := none, ahora := 6, numero := some 6, telefono := "f", cajero := none },
   { falla := none, ahora := 7, numero := some 7, telefono := "g", cajero := none }]

/-- Two calls of `reservarNumero` for the numbers 1 and 2, both served at the
instant 0 of the engine's clock. -/
def dosLlamadasEmpate : List Llamada :=
  [{ falla := none, ahora := 0, numero := some 1, telefono := "a", cajero := none },
   { falla := none, ahora := 0, numero := some 2, telefono := "b", cajero := none }]

/-- A configuration with three cashiers. -/
def tresCajeros : Config :=
  { numerosFijos := [73, 44, 87, 93], cajeros := ["+5491100000001", "+5491100000002",
      "+5491100000003"] }

/-- A contact that holds the character U+0000: `a`, U+0000, `b`. -/
def contactoNul : String := String.mk ['a', Char.ofNat 0, 'b']

/-- The configuration of the repository with another static blocklist. -/
def configCon (fijos : List Int) : Config :=
  { numerosFijos := fijos, cajeros := config.cajeros }

/-- A request is a registration. -/
def esRegistro : Peticion → Bool
  | .registrar _ _ _ _ => true
  | _ => false

/-! ## Sorting and the set of blocked numbers -/

theorem comparar_nonpos_iff (a b : Int) : comparar a b ≤ 0 ↔ a ≤ b := by
  unfold comparar; omega

theorem orderedInsert_comparar (a : Int) (xs : List Int) :
    xs.orderedInsert (fun a b => comparar a b ≤ 0) a =
      xs.orderedInsert (fun a b => a ≤ b) a := by
  induction xs with
  | nil => rfl
  | cons b l ih =>
    simp only [List.orderedInsert, comparar_nonpos_iff, ih]

theorem sortAsc_eq (xs : List Int) : sortAsc xs = xs.insertionSort (fun a b => a ≤ b) := by
  unfold sortAsc
  induction xs with
  | nil => rfl
  | cons b l ih =>
    simp only [List.insertionSort]
    rw [ih, orderedInsert_comparar]

theorem sortAsc_sorted (xs : List Int) : (sortAsc xs).Sorted (fun a b => a ≤ b) := by
  rw [sortAsc_eq]
  exact List.sorted_insertionSort (fun a b : Int => a ≤ b) xs

theorem sortAsc_perm (xs : List Int) : (sortAsc xs).Perm xs := by
  rw [sortAsc_eq]
  exact List.perm_insertionSort (fun a b : Int => a ≤ b) xs

theorem mem_setAdd (acc : List Int) (x y : Int) :
    y ∈ setAdd acc x ↔ y ∈ acc ∨ y = x := by
  unfold setAdd
  by_cases h : x ∈ acc
  · simp only [h, if_true]
    constructor
    · intro hy; exact Or.inl hy
    · rintro (hy | hy)
      · exact hy
      · subst hy; exact h
  · simp [h]

theorem nodup_setAdd (acc : List Int) (x : Int) (h : acc.Nodup) :
    (setAdd acc x).Nodup := by
  unfold setAdd
  by_cases hx : x ∈ acc
  · simpa [hx] using h
  · simp only [hx, if_false]
    rw [List.nodup_append]
    refine ⟨h, List.nodup_singleton x, ?_⟩
    intro a ha hb
    rw [List.mem_singleton] at hb
    subst hb
    exact hx ha

theorem foldl_setAdd_spec (xs : List Int) :
    ∀ acc : List Int, acc.Nodup →
      (xs.foldl setAdd acc).Nodup ∧
        ∀ y, y ∈ xs.foldl setAdd acc ↔ y ∈ acc ∨ y ∈ xs := by
  induction xs with
  | nil => intro acc h; simp [h]
  | cons x xs ih =>
    intro acc h
    obtain ⟨hn, hm⟩ := ih (setAdd acc x) (nodup_setAdd acc x h)
    refine ⟨by simpa using hn, ?_⟩
    intro y
    rw [List.foldl_cons, hm y, mem_setAdd, List.mem_cons]
    tauto

theorem arrayFromSet_nodup (xs : List Int) : (arrayFromSet xs).Nodup :=
  (foldl_setAdd_spec xs [] List.nodup_nil).1

theorem mem_arrayFromSet (xs : List Int) (y : Int) : y ∈ arrayFromSet xs ↔ y ∈ xs := by
  unfold arrayFromSet
  rw [(foldl_setAdd_spec xs [] List.nodup_nil).2 y]
  simp

theorem unionBloqueados_strict (fijos reservados : List Int) :
    (unionBloqueados fijos reservados).Sorted (fun a b => a < b) := by
  unfold unionBloqueados
  have hs := sortAsc_sorted (arrayFromSet (fijos ++ reservados))
  have hn : (sortAsc (arrayFromSet (fijos ++ reservados))).Nodup :=
    (sortAsc_perm _).nodup_iff.mpr (arrayFromSet_nodup _)
  have hp : (sortAsc (arrayFromSet (fijos ++ reservados))).Pairwise
      (fun a b => a ≤ b ∧ a ≠ b) := List.Pairwise.and hs hn
  exact List.Pairwise.imp (fun h => lt_of_le_of_ne h.1 h.2) hp

theorem mem_unionBloqueados (fijos reservados : List Int) (y : Int) :
    y ∈ unionBloqueados fijos reservados ↔ y ∈ fijos ∨ y ∈ reservados := by
  unfold unionBloqueados
  rw [(sortAsc_perm _).mem_iff, mem_arrayFromSet, List.mem_append]

theorem obtenerReservados_none (t : Tabla) : obtenerReservados none t = .ok (numeros t) := by
  simp [obtenerReservados, pgSelectNumero, numeros, List.map_map, Function.comp_def]

theorem obtenerReservados_some (f : Falla) (t : Tabla) :
    obtenerReservados (some f) t = .error (.falla f) := by
  simp [obtenerReservados, pgSelectNumero]

theorem getBloqueados_none (cfg : Config) (t : Tabla) :
    getBloqueados cfg none t =
      { status := 200, bloqueados := unionBloqueados cfg.numerosFijos (numeros t) } := by
  simp [getBloqueados, obtenerReservados_none]

theorem getBloqueados_some (cfg : Config) (f : Falla) (t : Tabla) :
    getBloqueados cfg (some f) t = { status := 500, bloqueados := cfg.numerosFijos } := by
  simp [getBloqueados, obtenerReservados_some]

theorem getBloqueados_strict (cfg : Config) (t : Tabla) :
    (getBloqueados cfg none t).bloqueados.Sorted (fun a b => a < b) := by
  rw [getBloqueados_none]
  exact unionBloqueados_strict _ _

/-! ## The blocked numbers (claims C4, C5, C6) -/

/-- C4: when the read of the store succeeds, `GET /api/bloqueados` answers with
status 200 and a list that is strictly ascending, and an integer is in the list
exactly when it is in the static blocklist or among the reserved numbers; this
holds for every static blocklist and every list of reserved numbers. -/
theorem c4_bloqueados_union (cfg : Config) (t : Tabla) :
    (getBloqueados cfg none t).status = 200 ∧
    (getBloqueados cfg none t).bloqueados.Sorted (fun a b => a < b) ∧
    (∀ y : Int, y ∈ (getBloqueados cfg none t).bloqueados ↔
      y ∈ cfg.numerosFijos ∨ y ∈ numeros t) ∧
    (∀ fijos reservados : List Int,
      (unionBloqueados fijos reservados).Sorted (fun a b => a < b) ∧
      ∀ y : Int, y ∈ unionBloqueados fijos reservados ↔ y ∈ fijos ∨ y ∈ reservados) := by
  rw [getBloqueados_none]
  exact ⟨rfl, unionBloqueados_strict _ _, mem_unionBloqueados _ _,
    fun fijos reservados =>
      ⟨unionBloqueados_strict fijos reservados, mem_unionBloqueados fijos reservados⟩⟩

/-- C5, as the code has it: whenever the read of the store fails,
`GET /api/bloqueados` answers with HTTP status 500, an error status, and its
body carries the static blocklist exactly as configured, `[73, 44, 87, 93]`. -/
theorem c5_degradado_status_500 (f : Falla) (t : Tabla) :
    getBloqueados config (some f) t = { status := 500, bloqueados := [73, 44, 87, 93] } ∧
    (getBloqueados config (some f) t).bloqueados = config.numerosFijos ∧
    esError (getBloqueados config (some f) t).status = true := by
  rw [getBloqueados_some]
  exact ⟨rfl, rfl, by decide⟩

/-- C5, against the claim: with the store refusing the connection the response
is an error, its status being 500. -/
theorem c5_respuesta_es_error :
    ¬ (esError (getBloqueados config (some Falla.connRefused) []).status = false) := by
  decide

/-- C6, at the failing input: with the store refusing the connection the list
`bloqueados` of the response is `[73, 44, 87, 93]`, which is not ascending, while
the list of the successful read on the same table is. -/
theorem c6_fallo_no_ordenado :
    (getBloqueados config (some Falla.connRefused) []).bloqueados = [73, 44, 87, 93] ∧
    ¬ (getBloqueados config (some Falla.connRefused) []).bloqueados.Sorted
        (fun a b => a ≤ b) ∧
    (getBloqueados config none []).bloqueados = [44, 73, 87, 93] := by
  decide

/-! ## The rotation of cashiers (claims C7, C8) -/

theorem getCajero_nat (cfg : Config) (i : Nat) (h : i < cfg.cajeros.length) :
    getCajero cfg (some (i : Int)) =
      (cfg.cajeros[i]?, some (((i + 1) % cfg.cajeros.length : Nat) : Int)) := by
  have hN : (cfg.cajeros.length : Int) ≠ 0 := by omega
  have hm : Int.tmod ((i : Int) + 1) (cfg.cajeros.length : Int) =
      (((i + 1) % cfg.cajeros.length : Nat) : Int) := by
    rw [Int.tmod_eq_emod (by omega) (by omega)]
    push_cast
    rfl
  simp [getCajero, jsIndex, jsRem, jsAdd, jsLength, hN, hm]

theorem cajeroAnterior_nat (cfg : Config) (i : Nat) (h : i < cfg.cajeros.length) :
    cajeroAnterior cfg (some (((i + 1) % cfg.cajeros.length : Nat) : Int)) =
      cfg.cajeros[i]? := by
  have hN : (cfg.cajeros.length : Int) ≠ 0 := by omega
  have hj : (i + 1) % cfg.cajeros.length < cfg.cajeros.length := Nat.mod_lt _ (by omega)
  have hm : Int.tmod ((((i + 1) % cfg.cajeros.length : Nat) : Int) - 1 +
      (cfg.cajeros.length : Int)) (cfg.cajeros.length : Int) = (i : Int) := by
    rw [Int.tmod_eq_emod (by omega) (by omega)]
    by_cases hc : i + 1 < cfg.cajeros.length
    · rw [Nat.mod_eq_of_lt hc]
      push_cast
      rw [show (i : Int) + 1 - 1 + (cfg.cajeros.length : Int) =
        (i : Int) + (cfg.cajeros.length : Int) by ring, Int.add_emod_self]
      exact Int.emod_eq_of_lt (by omega) (by omega)
    · have he : i + 1 = cfg.cajeros.length := by omega
      rw [← he, Nat.mod_self]
      push_cast
      rw [show (-1 : Int) + ((i : Int) + 1) = (i : Int) by ring]
      exact Int.emod_eq_of_lt (by omega) (by omega)
  simp only [cajeroAnterior, jsSub, jsAdd, jsRem, jsLength, if_neg hN]
  rw [hm]
  simp [jsIndex]

theorem rotar_spec (cfg : Config) (k : Nat) :
    ∀ i : Nat, i < cfg.cajeros.length →
      rotar cfg k (some (i : Int)) =
        ((List.range k).map (fun j => cfg.cajeros[(i + j) % cfg.cajeros.length]?),
          some (((i + k) % cfg.cajeros.length : Nat) : Int)) := by
  induction k with
  | zero =>
    intro i h
    simp [rotar, Nat.mod_eq_of_lt h]
  | succ k ih =>
    intro i h
    have hj : (i + 1) % cfg.cajeros.length < cfg.cajeros.length := Nat.mod_lt _ (by omega)
    simp only [rotar, getCajero_nat cfg i h, ih _ hj]
    rw [List.range_succ_eq_map, List.map_cons, List.map_map]
    refine Prod.ext ?_ ?_
    · simp only [Nat.add_zero, Nat.mod_eq_of_lt h, List.cons.injEq, true_and]
      apply List.map_congr_left
      intro j _
      simp only [Function.comp_apply, Nat.succ_eq_add_one]
      rw [Nat.mod_add_mod, Nat.add_assoc, Nat.add_comm 1 j]
    · simp only
      rw [Nat.mod_add_mod, Nat.add_assoc, Nat.add_comm 1 k]

theorem map_range_getElem? (l : List String) :
    (List.range l.length).map (fun j => l[j % l.length]?) = l.map some := by
  apply List.ext_getElem?
  intro n
  by_cases hn : n < l.length
  · simp [List.getElem?_map, List.getElem?_range hn, Nat.mod_eq_of_lt hn,
      List.getElem?_eq_getElem hn]
  · simp [List.getElem?_eq_none (by simpa using hn : (List.range l.length).length ≤ n),
      List.getElem?_eq_none (by omega : l.length ≤ n)]

theorem postRegistrar_eq (cfg : Config) (falla : Option Falla) (ahora : Nat) (s : Estado)
    (numero : JsNum) (telefono : Option String) :
    postRegistrar cfg falla ahora s numero telefono =
      (if (reservarNumero falla ahora s.tabla numero (telefonoDe telefono)
            (cajeroAnterior cfg s.indiceCajero)).1.ok = true
        then { ok := true, mensaje := none }
        else { ok := false,
               mensaje := (reservarNumero falla ahora s.tabla numero (telefonoDe telefono)
                 (cajeroAnterior cfg s.indiceCajero)).1.msg },
       { tabla := (reservarNumero falla ahora s.tabla numero (telefonoDe telefono)
            (cajeroAnterior cfg s.indiceCajero)).2,
         indiceCajero := s.indiceCajero }) := by
  simp only [postRegistrar]
  generalize reservarNumero falla ahora s.tabla numero (telefonoDe telefono)
      (cajeroAnterior cfg s.indiceCajero) = r
  cases hr : r.1.ok <;> simp

/-- C7: with a non-empty list of `N` cashiers and the index at 0, `N` consecutive
requests `GET /api/cajero` send the entries of the list, each once, in list
order (the request after `k < N` earlier ones sends entry `k`); the request
after `N` earlier ones sends the first entry again; and after every request the
index is the index before it plus 1 modulo `N`, so that it stays within
`0..N-1`. -/
theorem c7_rotacion (cfg : Config) (h : cfg.cajeros ≠ []) :
    (rotar cfg cfg.cajeros.length inicial.indiceCajero).1 = cfg.cajeros.map some ∧
    (∀ k : Nat, k < cfg.cajeros.length →
      (getCajero cfg (rotar cfg k inicial.indiceCajero).2).1 = cfg.cajeros[k]?) ∧
    (rotar cfg (cfg.cajeros.length + 1) inicial.indiceCajero).1 =
      cfg.cajeros.map some ++ [cfg.cajeros[0]?] ∧
    (getCajero cfg (rotar cfg cfg.cajeros.length inicial.indiceCajero).2).1 =
      cfg.cajeros[0]? ∧
    (∀ k : Nat, ∃ i : Nat, i < cfg.cajeros.length ∧
      (rotar cfg k inicial.indiceCajero).2 = some (i : Int) ∧
      (rotar cfg (k + 1) inicial.indiceCajero).2 =
        some (((i + 1) % cfg.cajeros.length : Nat) : Int) ∧
      (getCajero cfg (some (i : Int))).2 =
        some (((i + 1) % cfg.cajeros.length : Nat) : Int) ∧
      (i + 1) % cfg.cajeros.length < cfg.cajeros.length) := by
  have hN : 0 < cfg.cajeros.length := List.length_pos.mpr h
  have h0 : inicial.indiceCajero = some ((0 : Nat) : Int) := rfl
  rw [h0]
  have hr := fun k => rotar_spec cfg k 0 hN
  simp only [Nat.zero_add] at hr
  refine ⟨?_, ?_, ?_, ?_, ?_⟩
  · rw [hr]
    exact map_range_getElem? cfg.cajeros
  · intro k hk
    rw [hr]
    simp only [Nat.mod_eq_of_lt hk]
    rw [getCajero_nat cfg k hk]
  · rw [hr, List.range_succ, List.map_append, map_range_getElem?]
    simp
  · rw [hr]
    simp only [Nat.mod_self]
    rw [getCajero_nat cfg 0 hN]
  · intro k
    have hk : k % cfg.cajeros.length < cfg.cajeros.length := Nat.mod_lt _ hN
    refine ⟨k % cfg.cajeros.length, hk, ?_, ?_, ?_, Nat.mod_lt _ hN⟩
    · rw [hr]
    · rw [hr, Nat.mod_add_mod]
    · rw [getCajero_nat cfg _ hk]

/-- C7 at the configuration of the repository, whose list has one cashier, and
at a list of three cashiers: three requests send the three in list order, and
four requests send them followed by the first again. -/
theorem c7_rotacion_witness :
    config.cajeros ≠ [] ∧
    (rotar config config.cajeros.length inicial.indiceCajero).1 =
      config.cajeros.map some ∧
    tresCajeros.cajeros ≠ [] ∧
    (rotar tresCajeros tresCajeros.cajeros.length inicial.indiceCajero).1 =
      tresCajeros.cajeros.map some ∧
    (rotar tresCajeros (tresCajeros.cajeros.length + 1) inicial.indiceCajero).1 =
      tresCajeros.cajeros.map some ++ [tresCajeros.cajeros[0]?] :=
  ⟨by decide, (c7_rotacion config (by decide)).1, by decide,
    (c7_rotacion tresCajeros (by decide)).1, (c7_rotacion tresCajeros (by decide)).2.2.1⟩

/-- C8: with the rotation index `i` within the list of cashiers, when a request
`GET /api/cajero` is followed at once by `POST /api/registrar`, the cashier that
the registration computes and hands to `reservarNumero` is the entry `i` that
the request for a cashier sent, and the registration leaves the rotation index
as that request left it. -/
theorem c8_atribucion (cfg : Config) (s : Estado) (i : Nat)
    (hi : i < cfg.cajeros.length) (hs : s.indiceCajero = some (i : Int))
    (falla : Option Falla) (ahora : Nat) (numero : JsNum) (telefono : Option String) :
    (getCajero cfg s.indiceCajero).1 = cfg.cajeros[i]? ∧
    (getCajero cfg s.indiceCajero).1 ≠ none ∧
    cajeroAnterior cfg (paso cfg s Peticion.cajero).indiceCajero =
      (getCajero cfg s.indiceCajero).1 ∧
    (postRegistrar cfg falla ahora (paso cfg s Peticion.cajero) numero telefono).2.tabla =
      (reservarNumero falla ahora s.tabla numero (telefonoDe telefono)
        (getCajero cfg s.indiceCajero).1).2 ∧
    (postRegistrar cfg falla ahora (paso cfg s Peticion.cajero) numero telefono).1.ok =
      (reservarNumero falla ahora s.tabla numero (telefonoDe telefono)
        (getCajero cfg s.indiceCajero).1).1.ok ∧
    (postRegistrar cfg falla ahora (paso cfg s Peticion.cajero) numero
      telefono).2.indiceCajero = (paso cfg s Peticion.cajero).indiceCajero := by
  have hg := getCajero_nat cfg i hi
  have hc := cajeroAnterior_nat cfg i hi
  rw [postRegistrar_eq]
  simp only [paso, hs, hg, hc]
  refine ⟨trivial, ?_, trivial, trivial, ?_, trivial⟩
  · rw [List.getElem?_eq_getElem hi]
    exact Option.some_ne_none _
  · cases (reservarNumero falla ahora s.tabla numero (telefonoDe telefono)
      cfg.cajeros[i]?).1.ok <;> simp

/-- C8 at the configuration of the repository, from the initial state, and at a
list of three cashiers with the index at the last of them, where the request
for a cashier wraps the index to 0. -/
theorem c8_atribucion_witness :
    0 < config.cajeros.length ∧ inicial.indiceCajero = some ((0 : Nat) : Int) ∧
    cajeroAnterior config (paso config inicial Peticion.cajero).indiceCajero =
      (getCajero config inicial.indiceCajero).1 ∧
    2 < tresCajeros.cajeros.length ∧
    (getCajero tresCajeros (some ((2 : Nat) : Int))).1 = tresCajeros.cajeros[2]? ∧
    cajeroAnterior tresCajeros
        (paso tresCajeros { tabla := [], indiceCajero := some ((2 : Nat) : Int) }
          Peticion.cajero).indiceCajero =
      (getCajero tresCajeros (some ((2 : Nat) : Int))).1 :=
  ⟨by decide, rfl,
    (c8_atribucion config inicial 0 (by decide) rfl none 0 (some 10) none).2.2.1,
    by decide,
    (c8_atribucion tresCajeros { tabla := [], indiceCajero := some ((2 : Nat) : Int) } 2
      (by decide) rfl none 0 (some 10) none).1,
    (c8_atribucion tresCajeros { tabla := [], indiceCajero := some ((2 : Nat) : Int) } 2
      (by decide) rfl none 0 (some 10) none).2.2.1⟩

/-! ## Reserving a number (claims C1, C2, C3) -/

theorem code_ne_unique (e : PgError) (h : e ≠ PgError.uniqueViolation) :
    e.code ≠ "23505" := by
  cases e with
  | falla f => cases f <;> decide
  | uniqueViolation => exact absurd rfl h
  | numericValueOutOfRange => decide
  | invalidTextRepresentation => decide
  | characterNotInRepertoire => decide

theorem reservarNumero_falla (f : Falla) (ahora : Nat) (t : Tabla) (numero : JsNum)
    (telefono : String) (cajero : Option String) :
    reservarNumero (some f) ahora t numero telefono cajero = (resultadoFallo, t) := by
  simp [reservarNumero, pgInsert, code_ne_unique]

theorem reservarNumero_nan (ahora : Nat) (t : Tabla) (telefono : String)
    (cajero : Option String) :
    reservarNumero none ahora t none telefono cajero = (resultadoFallo, t) := by
  simp [reservarNumero, pgInsert, code_ne_unique]

theorem no_exponente (n : Int) (h : ¬ (n < int4Min ∨ int4Max < n)) :
    ¬ (n ≤ -jsExponente ∨ jsExponente ≤ n) := by
  simp only [int4Min, int4Max, jsExponente] at h ⊢
  omega

theorem reservarNumero_rango (ahora : Nat) (t : Tabla) (n : Int)
    (h : n < int4Min ∨ int4Max < n) (telefono : String) (cajero : Option String) :
    reservarNumero none ahora t (some n) telefono cajero = (resultadoFallo, t) := by
  by_cases he : n ≤ -jsExponente ∨ jsExponente ≤ n
  · simp [reservarNumero, pgInsert, he, code_ne_unique]
  · simp [reservarNumero, pgInsert, he, h, code_ne_unique]

theorem reservarNumero_texto (ahora : Nat) (t : Tabla) (n : Int) (telefono : String)
    (cajero : Option String)
    (h : textoValido telefono = false ∨ cajeroValido cajero = false) :
    reservarNumero none ahora t (some n) telefono cajero = (resultadoFallo, t) := by
  by_cases he : n ≤ -jsExponente ∨ jsExponente ≤ n
  · simp [reservarNumero, pgInsert, he, code_ne_unique]
  · by_cases hr : n < int4Min ∨ int4Max < n
    · exact reservarNumero_rango ahora t n hr telefono cajero
    · by_cases ht : textoValido telefono = false
      · simp [reservarNumero, pgInsert, he, hr, ht, code_ne_unique]
      · have hc : cajeroValido cajero = false := h.resolve_left ht
        simp [reservarNumero, pgInsert, he, hr, ht, hc, code_ne_unique]

theorem reservarNumero_ocupado (ahora : Nat) (t : Tabla) (n : Int)
    (h : ¬ (n < int4Min ∨ int4Max < n)) (hn : n ∈ numeros t) (telefono : String)
    (cajero : Option String) (ht : textoValido telefono = true)
    (hc : cajeroValido cajero = true) :
    reservarNumero none ahora t (some n) telefono cajero = (resultadoOcupado, t) := by
  simp only [reservarNumero, pgInsert, if_neg (no_exponente n h), if_neg h, ht, hc,
    if_pos hn]
  simp [PgError.code]

theorem reservarNumero_libre (ahora : Nat) (t : Tabla) (n : Int)
    (h : ¬ (n < int4Min ∨ int4Max < n)) (hn : n ∉ numeros t) (telefono : String)
    (cajero : Option String) (ht : textoValido telefono = true)
    (hc : cajeroValido cajero = true) :
    reservarNumero none ahora t (some n) telefono cajero =
      (resultadoOk, t ++ [{ numero := n, telefono := some telefono, cajero := cajero,
                            fecha := ahora }]) := by
  simp only [reservarNumero, pgInsert, if_neg (no_exponente n h), if_neg h, ht, hc,
    if_neg hn]
  simp

/-- The outcomes of `reservarNumero`. -/
theorem reservarNumero_casos (falla : Option Falla) (ahora : Nat) (t : Tabla)
    (numero : JsNum) (telefono : String) (cajero : Option String) :
    (reservarNumero falla ahora t numero telefono cajero = (resultadoFallo, t) ∧
      (falla ≠ none ∨ numero = none ∨
        (∃ n, numero = some n ∧ (n < int4Min ∨ int4Max < n)) ∨
        textoValido telefono = false ∨ cajeroValido cajero = false)) ∨
    (∃ n, falla = none ∧ numero = some n ∧ ¬ (n < int4Min ∨ int4Max < n) ∧
      textoValido telefono = true ∧ cajeroValido cajero = true ∧
      n ∈ numeros t ∧
      reservarNumero falla ahora t numero telefono cajero = (resultadoOcupado, t)) ∨
    (∃ n, falla = none ∧ numero = some n ∧ ¬ (n < int4Min ∨ int4Max < n) ∧
      textoValido telefono = true ∧ cajeroValido cajero = true ∧
      n ∉ numeros t ∧
      reservarNumero falla ahora t numero telefono cajero =
        (resultadoOk, t ++ [{ numero := n, telefono := some telefono, cajero := cajero,
                              fecha := ahora }])) := by
  cases falla with
  | some f => exact Or.inl ⟨reservarNumero_falla f ahora t numero telefono cajero, Or.inl (by simp)⟩
  | none =>
    cases numero with
    | none => exact Or.inl ⟨reservarNumero_nan ahora t telefono cajero, Or.inr (Or.inl rfl)⟩
    | some n =>
      by_cases h : n < int4Min ∨ int4Max < n
      · exact Or.inl ⟨reservarNumero_rango ahora t n h telefono cajero,
          Or.inr (Or.inr (Or.inl ⟨n, rfl, h⟩))⟩
      · by_cases ht : textoValido telefono = true
        · by_cases hc : cajeroValido cajero = true
          · by_cases hn : n ∈ numeros t
            · exact Or.inr (Or.inl ⟨n, rfl, rfl, h, ht, hc, hn,
                reservarNumero_ocupado ahora t n h hn telefono cajero ht hc⟩)
            · exact Or.inr (Or.inr ⟨n, rfl, rfl, h, ht, hc, hn,
                reservarNumero_libre ahora t n h hn telefono cajero ht hc⟩)
          · have hc2 : cajeroValido cajero = false := by simpa using hc
            exact Or.inl ⟨reservarNumero_texto ahora t n telefono cajero (Or.inr hc2),
              Or.inr (Or.inr (Or.inr (Or.inr hc2)))⟩
        · have ht2 : textoValido telefono = false := by simpa using ht
          exact Or.inl ⟨reservarNumero_texto ahora t n telefono cajero (Or.inl ht2),
            Or.inr (Or.inr (Or.inr (Or.inl ht2)))⟩

theorem resultados_distintos :
    resultadoOcupado ≠ resultadoFallo ∧ resultadoOcupado ≠ resultadoOk ∧
      resultadoFallo ≠ resultadoOk := by
  decide

theorem numeros_append (t u : Tabla) : numeros (t ++ u) = numeros t ++ numeros u := by
  simp [numeros]

/-- A call of `reservarNumero` appends rows, and keeps the numbers distinct. -/
theorem reservarNumero_crece (falla : Option Falla) (ahora : Nat) (t : Tabla)
    (numero : JsNum) (telefono : String) (cajero : Option String) :
    (∃ extra, (reservarNumero falla ahora t numero telefono cajero).2 = t ++ extra) ∧
    ((numeros t).Nodup →
      (numeros (reservarNumero falla ahora t numero telefono cajero).2).Nodup) := by
  rcases reservarNumero_casos falla ahora t numero telefono cajero with
    ⟨h, _⟩ | ⟨n, _, _, _, _, _, _, h⟩ | ⟨n, _, _, _, _, _, hn, h⟩
  · rw [h]; exact ⟨⟨[], by simp⟩, fun hd => hd⟩
  · rw [h]; exact ⟨⟨[], by simp⟩, fun hd => hd⟩
  · rw [h]
    refine ⟨⟨_, rfl⟩, fun hd => ?_⟩
    rw [numeros_append, List.nodup_append]
    refine ⟨hd, by simp [numeros], ?_⟩
    intro a ha hb
    simp only [numeros, List.map_cons, List.map_nil, List.mem_singleton] at hb
    subst hb
    exact hn ha

theorem paso_crece (cfg : Config) (s : Estado) (p : Peticion) :
    (∃ extra, (paso cfg s p).tabla = s.tabla ++ extra) ∧
    ((numeros s.tabla).Nodup → (numeros (paso cfg s p).tabla).Nodup) := by
  cases p with
  | bloqueados f => exact ⟨⟨[], by simp [paso]⟩, fun h => h⟩
  | cajero => exact ⟨⟨[], by simp [paso]⟩, fun h => h⟩
  | ganador => exact ⟨⟨[], by simp [paso]⟩, fun h => h⟩
  | stats => exact ⟨⟨[], by simp [paso]⟩, fun h => h⟩
  | registrar falla ahora numero telefono =>
    simp only [paso, postRegistrar_eq]
    exact reservarNumero_crece falla ahora s.tabla numero (telefonoDe telefono)
      (cajeroAnterior cfg s.indiceCajero)

theorem correr_append (cfg : Config) (s : Estado) (ps qs : List Peticion) :
    correr cfg s (ps ++ qs) = correr cfg (correr cfg s ps) qs := by
  simp [correr, List.foldl_append]

theorem correr_crece (cfg : Config) (qs : List Peticion) :
    ∀ s : Estado, (∃ extra, (correr cfg s qs).tabla = s.tabla ++ extra) ∧
      ((numeros s.tabla).Nodup → (numeros (correr cfg s qs).tabla).Nodup) := by
  induction qs with
  | nil => intro s; exact ⟨⟨[], by simp [correr]⟩, fun h => h⟩
  | cons q qs ih =>
    intro s
    obtain ⟨⟨e1, h1⟩, n1⟩ := paso_crece cfg s q
    obtain ⟨⟨e2, h2⟩, n2⟩ := ih (paso cfg s q)
    have hc : correr cfg s (q :: qs) = correr cfg (paso cfg s q) qs := rfl
    rw [hc]
    refine ⟨⟨e1 ++ e2, ?_⟩, fun h => n2 (n1 h)⟩
    rw [h2, h1, List.append_assoc]

/-- C1: in every state reached from the empty table, whatever the rotation
index, by a sequence of requests of the service, the numbers of the rows are
pairwise distinct; and the table of a state is an initial segment of the table
of every later state, so that every row of a state is a row, unchanged and at
the same place, of every later state. -/
theorem c1_unicidad_solo_crece (cfg : Config) (i : JsNum) (ps qs : List Peticion) :
    (numeros (correr cfg { tabla := [], indiceCajero := i } ps).tabla).Nodup ∧
    (∃ extra, (correr cfg { tabla := [], indiceCajero := i } (ps ++ qs)).tabla =
      (correr cfg { tabla := [], indiceCajero := i } ps).tabla ++ extra) ∧
    (∀ r, r ∈ (correr cfg { tabla := [], indiceCajero := i } ps).tabla →
      r ∈ (correr cfg { tabla := [], indiceCajero := i } (ps ++ qs)).tabla) := by
  have h1 := (correr_crece cfg ps { tabla := [], indiceCajero := i }).2 (by simp [numeros])
  obtain ⟨extra, h2⟩ :=
    (correr_crece cfg qs (correr cfg { tabla := [], indiceCajero := i } ps)).1
  rw [correr_append]
  refine ⟨h1, ⟨extra, h2⟩, ?_⟩
  intro r hr
  rw [h2]
  exact List.mem_append_left _ hr

/-- C1 on a run of the repository's configuration: the number 10 is registered
twice, then 11; the table holds 10 and 11 once each, and the row of 10 is a row
of the later state. -/
theorem c1_unicidad_solo_crece_witness :
    numeros (correr config inicial
      [Peticion.registrar none 1 (some 10) none, Peticion.cajero,
        Peticion.registrar none 2 (some 10) none,
        Peticion.registrar none 3 (some 11) none]).tabla = [10, 11] ∧
    (∀ r, r ∈ (correr config inicial [Peticion.registrar none 1 (some 10) none]).tabla →
      r ∈ (correr config inicial ([Peticion.registrar none 1 (some 10) none] ++
        [Peticion.cajero, Peticion.registrar none 2 (some 10) none,
          Peticion.registrar none 3 (some 11) none])).tabla) :=
  ⟨by decide,
    (c1_unicidad_solo_crece config (some 0) [Peticion.registrar none 1 (some 10) none]
      [Peticion.cajero, Peticion.registrar none 2 (some 10) none,
        Peticion.registrar none 3 (some 11) none]).2.2⟩

theorem rango_de_fila (t : Tabla) (hv : filasInt4 t) (n : Int) (hn : n ∈ numeros t) :
    ¬ (n < int4Min ∨ int4Max < n) := by
  simp only [numeros, List.mem_map] at hn
  obtain ⟨r, hr, rfl⟩ := hn
  exact hv r hr

/-- Every table that the service builds from the empty one holds values of the
column type `INT`. -/
theorem correr_filasInt4 (cfg : Config) (ps : List Peticion) :
    ∀ s : Estado, filasInt4 s.tabla → filasInt4 (correr cfg s ps).tabla := by
  induction ps with
  | nil => intro s h; exact h
  | cons p ps ih =>
    intro s h
    have hc : correr cfg s (p :: ps) = correr cfg (paso cfg s p) ps := rfl
    rw [hc]
    apply ih
    cases p with
    | bloqueados f => exact h
    | cajero => exact h
    | ganador => exact h
    | stats => exact h
    | registrar falla ahora numero telefono =>
      simp only [paso, postRegistrar_eq]
      rcases reservarNumero_casos falla ahora s.tabla numero (telefonoDe telefono)
          (cajeroAnterior cfg s.indiceCajero) with
        ⟨e, _⟩ | ⟨n, _, _, _, _, _, _, e⟩ | ⟨n, _, _, hr, _, _, _, e⟩
      · rw [e]; exact h
      · rw [e]; exact h
      · rw [e]
        intro r hmem
        rcases List.mem_append.mp hmem with h1 | h1
        · exact h r h1
        · rw [List.mem_singleton] at h1
          subst h1
          exact hr

theorem jsIndex_mem {α : Type} (xs : List α) (i : JsNum) (x : α)
    (h : jsIndex xs i = some x) : x ∈ xs := by
  unfold jsIndex at h
  cases i with
  | none => simp at h
  | some k =>
    by_cases hk : 0 ≤ k
    · simp only [hk, if_true] at h
      exact List.getElem?_mem h
    · simp [hk] at h

/-- The cashier of line 98 is, with the cashiers of the repository, a text that
the engine accepts, whatever the rotation index. -/
theorem cajeroAnterior_configCon (fijos : List Int) (i : JsNum) :
    cajeroValido (cajeroAnterior (configCon fijos) i) = true := by
  cases hc : cajeroAnterior (configCon fijos) i with
  | none => rfl
  | some c =>
    have hmem : c ∈ (configCon fijos).cajeros := jsIndex_mem _ _ c hc
    simp only [configCon, config, List.mem_singleton] at hmem
    subst hmem
    decide

/-- C2, as the code has it: on every table and for every number held by one of
its rows, `reservarNumero` fails and leaves the table as it was, whatever the
contact, the cashier and the transport; when contact and cashier hold no
character U+0000 and the statement reaches the engine, its result is the
conflict, `ok: false` with `msg: 'Número ya ocupado'`, which the route sends as
`mensaje`; the conflict differs from the result `ok: false` without `msg`,
which is the result of every failure other than the violation of `UNIQUE`,
among them a contact or a cashier with U+0000; and the conflict is the result
only when the number was in the table. -/
theorem c2_conflicto (t : Tabla) (hv : filasInt4 t) (n : Int) (hn : n ∈ numeros t)
    (ahora : Nat) (telefono : String) (cajero : Option String)
    (ht : textoValido telefono = true) (hc : cajeroValido cajero = true) :
    (∀ (falla : Option Falla) (tel : String) (caj : Option String),
      (reservarNumero falla ahora t (some n) tel caj).1.ok = false ∧
      (reservarNumero falla ahora t (some n) tel caj).2 = t) ∧
    reservarNumero none ahora t (some n) telefono cajero =
      ({ ok := false, msg := some "Número ya ocupado" }, t) ∧
    (∀ (fijos : List Int) (i : JsNum) (tel : Option String),
      textoValido (telefonoDe tel) = true →
      postRegistrar (configCon fijos) none ahora { tabla := t, indiceCajero := i }
          (some n) tel =
        ({ ok := false, mensaje := some "Número ya ocupado" },
          { tabla := t, indiceCajero := i })) ∧
    resultadoOcupado ≠ resultadoFallo ∧
    resultadoFallo = { ok := false, msg := none } ∧
    (∀ (falla : Option Falla) (u : Tabla) (numero : JsNum) (tel : String)
        (caj : Option String) (e : PgError),
      pgInsert falla ahora u numero tel caj = Except.error e →
      e ≠ PgError.uniqueViolation →
      reservarNumero falla ahora u numero tel caj = (resultadoFallo, u)) ∧
    (∀ (tel : String) (caj : Option String),
      textoValido tel = false ∨ cajeroValido caj = false →
      reservarNumero none ahora t (some n) tel caj = (resultadoFallo, t)) ∧
    (∀ (falla : Option Falla) (u : Tabla) (numero : JsNum) (tel : String)
        (caj : Option String),
      (reservarNumero falla ahora u numero tel caj).1 = resultadoOcupado →
      ∃ k, numero = some k ∧ k ∈ numeros u) := by
  have hr := rango_de_fila t hv n hn
  have hoc := fun tel caj h1 h2 => reservarNumero_ocupado ahora t n hr hn tel caj h1 h2
  refine ⟨?_, hoc telefono cajero ht hc, ?_, resultados_distintos.1, rfl, ?_, ?_, ?_⟩
  · intro falla tel caj
    rcases reservarNumero_casos falla ahora t (some n) tel caj with
      ⟨e, _⟩ | ⟨k, _, _, _, _, _, _, e⟩ | ⟨k, _, hk, _, _, _, hmem, _⟩
    · rw [e]; exact ⟨rfl, rfl⟩
    · rw [e]; exact ⟨rfl, rfl⟩
    · have hkn : n = k := Option.some.inj hk
      subst hkn
      exact absurd hn hmem
  · intro fijos i tel htel
    rw [postRegistrar_eq]
    simp only [hoc (telefonoDe tel) _ htel (cajeroAnterior_configCon fijos i)]
    simp [resultadoOcupado]
  · intro falla u numero tel caj e he hne
    simp only [reservarNumero, he, if_neg (code_ne_unique e hne)]
  · intro tel caj h
    exact reservarNumero_texto ahora t n tel caj h
  · intro falla u numero tel caj h
    rcases reservarNumero_casos falla ahora u numero tel caj with
      ⟨h1, _⟩ | ⟨k, _, hk, _, _, _, hmem, _⟩ | ⟨k, _, _, _, _, _, _, h3⟩
    · rw [h1] at h
      exact absurd h.symm resultados_distintos.1
    · exact ⟨k, hk, hmem⟩
    · rw [h3] at h
      exact absurd h.symm resultados_distintos.2.1

/-- C2 on a table that holds the number 10. -/
theorem c2_conflicto_witness :
    filasInt4 [{ numero := 10, telefono := some "a", cajero := none, fecha := 0 }] ∧
    (10 : Int) ∈ numeros [{ numero := 10, telefono := some "a", cajero := none, fecha := 0 }] ∧
    textoValido "b" = true ∧ cajeroValido none = true ∧
    reservarNumero none 1 [{ numero := 10, telefono := some "a", cajero := none, fecha := 0 }]
        (some 10) "b" none =
      ({ ok := false, msg := some "Número ya ocupado" },
        [{ numero := 10, telefono := some "a", cajero := none, fecha := 0 }]) :=
  ⟨by decide, by decide, by decide, by decide,
    (c2_conflicto [{ numero := 10, telefono := some "a", cajero := none, fecha := 0 }]
      (by decide) 10 (by decide) 1 "b" none (by decide) (by decide)).2.1⟩

/-- C2, against the claim: the table holds the number 10, and `reservarNumero`
for 10 does not return the conflict but `ok: false` without `msg` when the
contact holds the character U+0000, when the cashier does, and when the
statement does not reach the engine. -/
theorem c2_sin_conflicto :
    (10 : Int) ∈ numeros [{ numero := 10, telefono := some "a", cajero := none, fecha := 0 }] ∧
    reservarNumero none 1 [{ numero := 10, telefono := some "a", cajero := none, fecha := 0 }]
        (some 10) contactoNul none =
      ({ ok := false, msg := none },
        [{ numero := 10, telefono := some "a", cajero := none, fecha := 0 }]) ∧
    reservarNumero none 1 [{ numero := 10, telefono := some "a", cajero := none, fecha := 0 }]
        (some 10) "b" (some contactoNul) =
      ({ ok := false, msg := none },
        [{ numero := 10, telefono := some "a", cajero := none, fecha := 0 }]) ∧
    reservarNumero (some Falla.connRefused) 1
        [{ numero := 10, telefono := some "a", cajero := none, fecha := 0 }]
        (some 10) "b" none =
      ({ ok := false, msg := none },
        [{ numero := 10, telefono := some "a", cajero := none, fecha := 0 }]) ∧
    ({ ok := false, msg := none } : Resultado) ≠
      { ok := false, msg := some "Número ya ocupado" } := by
  decide

/-- C3, against the claim: two calls of `reservarNumero` with the same number in
flight at once, under both interleavings.  On a table that holds the number
both report the conflict.  On the empty table: when the contact of the first
holds U+0000, or when its statement does not reach the engine, it fails
without conflict and the other succeeds; when the number is outside `INT` both
fail without conflict. -/
theorem c3_otros_desenlaces :
    (∀ primeroA : Bool,
      dosReservas primeroA [{ numero := 10, telefono := some "a", cajero := none, fecha := 0 }]
        { falla := none, ahora := 1, numero := some 10, telefono := "b", cajero := none }
        { falla := none, ahora := 2, numero := some 10, telefono := "c", cajero := none } =
      (resultadoOcupado, resultadoOcupado,
        [{ numero := 10, telefono := some "a", cajero := none, fecha := 0 }])) ∧
    (∀ primeroA : Bool,
      dosReservas primeroA []
        { falla := none, ahora := 1, numero := some 20, telefono := contactoNul,
          cajero := none }
        { falla := none, ahora := 2, numero := some 20, telefono := "c", cajero := none } =
      (resultadoFallo, resultadoOk,
        [{ numero := 20, telefono := some "c", cajero := none, fecha := 2 }])) ∧
    (∀ primeroA : Bool,
      dosReservas primeroA []
        { falla := some Falla.connRefused, ahora := 1, numero := some 20, telefono := "b",
          cajero := none }
        { falla := none, ahora := 2, numero := some 20, telefono := "c", cajero := none } =
      (resultadoFallo, resultadoOk,
        [{ numero := 20, telefono := some "c", cajero := none, fecha := 2 }])) ∧
    (∀ primeroA : Bool,
      dosReservas primeroA []
        { falla := none, ahora := 1, numero := some 2147483648, telefono := "b",
          cajero := none }
        { falla := none, ahora := 2, numero := some 2147483648, telefono := "c",
          cajero := none } =
      (resultadoFallo, resultadoFallo, [])) ∧
    resultadoOcupado.ok = false ∧ resultadoFallo.ok = false ∧
    resultadoFallo ≠ resultadoOcupado := by
  decide

/-- C3, as the code has it: two calls of `reservarNumero` are in flight at once
with the same number, a value of the column type `INT`; their contacts and
cashiers hold no character U+0000 and both statements reach the engine.  If the
table does not hold the number, the call whose statement runs first succeeds
and the other reports the conflict, under both interleavings: exactly one
succeeds, and the table gains exactly one row, with that number.  If the table
holds the number, both report the conflict and the table stays as it was. -/
theorem c3_una_sola_gana (primeroA : Bool) (t : Tabla) (a b : Llamada) (n : Int)
    (ha : a.numero = some n) (hb : b.numero = some n)
    (hfa : a.falla = none) (hfb : b.falla = none)
    (hr : ¬ (n < int4Min ∨ int4Max < n))
    (hta : textoValido a.telefono = true) (hca : cajeroValido a.cajero = true)
    (htb : textoValido b.telefono = true) (hcb : cajeroValido b.cajero = true) :
    (n ∉ numeros t →
      ((dosReservas primeroA t a b).1 = resultadoOk ∧
          (dosReservas primeroA t a b).2.1 = resultadoOcupado ∨
        (dosReservas primeroA t a b).1 = resultadoOcupado ∧
          (dosReservas primeroA t a b).2.1 = resultadoOk) ∧
      ((dosReservas primeroA t a b).1 = resultadoOk ↔ primeroA = true) ∧
      (∃ fila : Reserva, fila.numero = n ∧
        (dosReservas primeroA t a b).2.2 = t ++ [fila])) ∧
    (n ∈ numeros t →
      dosReservas primeroA t a b = (resultadoOcupado, resultadoOcupado, t)) := by
  have e2 : ∀ (c : Llamada) (u : Tabla), c.numero = some n → c.falla = none →
      textoValido c.telefono = true → cajeroValido c.cajero = true →
      n ∈ numeros u → ejecutar u c = (resultadoOcupado, u) := by
    intro c u hc hf h1 h2 hmem
    simp only [ejecutar, hc, hf]
    exact reservarNumero_ocupado c.ahora u n hr hmem c.telefono c.cajero h1 h2
  constructor
  · intro hn
    have hmem : ∀ fila : Reserva, fila.numero = n → n ∈ numeros (t ++ [fila]) := by
      intro fila hf
      simp [numeros, hf]
    have e1 : ∀ c : Llamada, c.numero = some n → c.falla = none →
        textoValido c.telefono = true → cajeroValido c.cajero = true →
        ejecutar t c = (resultadoOk, t ++ [filaDe c n]) := by
      intro c hc hf h1 h2
      simp only [ejecutar, hc, hf]
      exact reservarNumero_libre c.ahora t n hr hn c.telefono c.cajero h1 h2
    cases primeroA with
    | true =>
      have h2 := e2 b (t ++ [filaDe a n]) hb hfb htb hcb (hmem _ rfl)
      have hd : dosReservas true t a b =
          (resultadoOk, resultadoOcupado, t ++ [filaDe a n]) := by
        simp only [dosReservas, if_true, e1 a ha hfa hta hca, h2]
      rw [hd]
      exact ⟨Or.inl ⟨rfl, rfl⟩, by simp, ⟨filaDe a n, rfl, rfl⟩⟩
    | false =>
      have h2 := e2 a (t ++ [filaDe b n]) ha hfa hta hca (hmem _ rfl)
      have hd : dosReservas false t a b =
          (resultadoOcupado, resultadoOk, t ++ [filaDe b n]) := by
        simp only [dosReservas, Bool.false_eq_true, if_false, e1 b hb hfb htb hcb, h2]
      rw [hd]
      refine ⟨Or.inr ⟨rfl, rfl⟩, ?_, ⟨filaDe b n, rfl, rfl⟩⟩
      simp only [Bool.false_eq_true, iff_false]
      exact resultados_distintos.2.1
  · intro hn
    have ea := e2 a t ha hfa hta hca hn
    have eb := e2 b t hb hfb htb hcb hn
    cases primeroA with
    | true => simp only [dosReservas, if_true, ea, eb]
    | false => simp only [dosReservas, Bool.false_eq_true, if_false, ea, eb]

/-- C3 on the empty table, the two calls asking for the number 10 and the
statement of the second running first: the second succeeds, the first reports
the conflict. -/
theorem c3_una_sola_gana_witness :
    (dosReservas false []
        { falla := none, ahora := 1, numero := some 10, telefono := "b", cajero := none }
        { falla := none, ahora := 2, numero := some 10, telefono := "c", cajero := none }).1 =
      resultadoOcupado ∧
    (dosReservas false []
        { falla := none, ahora := 1, numero := some 10, telefono := "b", cajero := none }
        { falla := none, ahora := 2, numero := some 10, telefono := "c", cajero := none }).2.1 =
      resultadoOk := by
  have h := ((c3_una_sola_gana false []
    { falla := none, ahora := 1, numero := some 10, telefono := "b", cajero := none }
    { falla := none, ahora := 2, numero := some 10, telefono := "c", cajero := none }
    10 rfl rfl rfl rfl (by decide) (by decide) (by decide) (by decide) (by decide)).1
    (by decide)).1
  rcases h with ⟨h1, _⟩ | h
  · exact absurd h1 (by decide)
  · exact h

/-! ## Statistics (claim C9) -/

theorem ejecutar_ok (t : Tabla) (c : Llamada) (h : (ejecutar t c).1.ok = true) :
    ∃ n, c.numero = some n ∧ n ∉ numeros t ∧ ejecutar t c = (resultadoOk, t ++ [filaDe c n]) := by
  unfold ejecutar at h ⊢
  rcases reservarNumero_casos c.falla c.ahora t c.numero c.telefono c.cajero with
    ⟨h1, _⟩ | ⟨n, _, _, _, _, _, _, h2⟩ | ⟨n, _, hn, _, _, _, hmem, h3⟩
  · rw [h1] at h; exact absurd h (by simp [resultadoFallo])
  · rw [h2] at h; exact absurd h (by simp [resultadoOcupado])
  · exact ⟨n, hn, hmem, h3⟩

theorem reservarTodos_ok (cs : List Llamada) :
    ∀ (t : Tabla) (ns : List Int), cs.map (fun c => c.numero) = ns.map some →
      (∀ r ∈ (reservarTodos t cs).1, r.ok = true) →
      numeros (reservarTodos t cs).2 = numeros t ++ ns ∧
      (reservarTodos t cs).2.map (fun r => r.fecha) =
        t.map (fun r => r.fecha) ++ cs.map (fun c => c.ahora) ∧
      ((numeros t).Nodup → (numeros (reservarTodos t cs).2).Nodup) := by
  induction cs with
  | nil =>
    intro t ns hns _
    cases ns with
    | nil => simp [reservarTodos]
    | cons n ns => simp at hns
  | cons c cs ih =>
    intro t ns hns hok
    cases ns with
    | nil => simp at hns
    | cons n ns =>
      simp only [List.map_cons, List.cons.injEq] at hns
      obtain ⟨hn, hns⟩ := hns
      have hc : (ejecutar t c).1.ok = true := hok _ (by simp [reservarTodos])
      obtain ⟨m, hm, hmem, he⟩ := ejecutar_ok t c hc
      have hmn : m = n := by rw [hn] at hm; exact (Option.some.inj hm).symm
      subst hmn
      have hrest : ∀ r ∈ (reservarTodos (ejecutar t c).2 cs).1, r.ok = true := by
        intro r hr
        exact hok r (by simp [reservarTodos, hr])
      obtain ⟨i1, i2, i3⟩ := ih (ejecutar t c).2 ns hns hrest
      have hfin : (reservarTodos t (c :: cs)).2 = (reservarTodos (ejecutar t c).2 cs).2 := rfl
      rw [hfin]
      rw [he] at i1 i2 i3 ⊢
      refine ⟨?_, ?_, ?_⟩
      · rw [i1]; simp [numeros, filaDe]
      · rw [i2]; simp [filaDe]
      · intro hd
        apply i3
        rw [numeros_append, List.nodup_append]
        refine ⟨hd, by simp [numeros], ?_⟩
        intro a ha hb
        simp only [numeros, filaDe, List.map_cons, List.map_nil, List.mem_singleton] at hb
        subst hb
        exact hmem ha

theorem eq_of_perm_of_map_eq {f : Reserva → Nat} :
    ∀ (l₁ l₂ : Tabla), l₁.Perm l₂ → (l₂.map f).Nodup → l₁.map f = l₂.map f → l₁ = l₂ := by
  intro l₁
  induction l₁ with
  | nil => intro l₂ hp _ _; exact hp.symm.eq_nil.symm
  | cons a l ih =>
    intro l₂ hp hd hm
    cases l₂ with
    | nil => simp at hm
    | cons b m =>
      simp only [List.map_cons, List.cons.injEq] at hm
      obtain ⟨hab, hm⟩ := hm
      have ha : a ∈ b :: m := hp.subset (List.mem_cons_self a l)
      have hne : a = b := by
        rcases List.mem_cons.mp ha with h | h
        · exact h
        · exfalso
          rw [List.map_cons, List.nodup_cons] at hd
          apply hd.1
          rw [← hab]
          exact List.mem_map_of_mem f h
      subst hne
      rw [List.map_cons, List.nodup_cons] at hd
      rw [ih m hp.cons_inv hd.2 hm]

/-- When the values of `fecha` grow strictly along the table, `ORDER BY fecha
DESC` has one possible result: the table reversed. -/
theorem ordenFechaDesc_iff (t : Tabla)
    (ht : (t.map (fun r => r.fecha)).Sorted (fun a b => a < b)) (orden : Tabla) :
    OrdenFechaDesc t orden ↔ orden = t.reverse := by
  have hrev : t.reverse.Sorted (fun a b => b.fecha < a.fecha) := by
    unfold List.Sorted
    rw [List.pairwise_reverse]
    exact List.pairwise_map.mp ht
  constructor
  · rintro ⟨hp, hs⟩
    have hp2 : orden.Perm t.reverse := hp.trans (List.reverse_perm t).symm
    have hnd : (t.reverse.map (fun r => r.fecha)).Nodup := by
      have h1 : (t.reverse.map (fun r => r.fecha)).Pairwise (fun a b => b < a) :=
        List.pairwise_map.mpr hrev
      exact h1.imp (fun h => Nat.ne_of_gt h)
    have hs1 : (orden.map (fun r => r.fecha)).Sorted (fun a b => b ≤ a) :=
      List.pairwise_map.mpr hs
    have hs2 : (t.reverse.map (fun r => r.fecha)).Sorted (fun a b => b ≤ a) :=
      List.pairwise_map.mpr (hrev.imp (fun h => Nat.le_of_lt h))
    have hanti : IsAntisymm Nat (fun a b => b ≤ a) := ⟨fun a b h1 h2 => Nat.le_antisymm h2 h1⟩
    have hmap := List.eq_of_perm_of_sorted (hp2.map (fun r => r.fecha)) hs1 hs2
    exact eq_of_perm_of_map_eq orden t.reverse hp2 hnd hmap
  · rintro rfl
    exact ⟨List.reverse_perm t, hrev.imp (fun h => Nat.le_of_lt h)⟩

/-- C9, as the code has it: when a sequence of numbers is reserved in order
into the empty table, every call succeeding, and the values of `fecha` grow
strictly in insertion order, the numbers are distinct and `obtenerStats`
returns, and can only return, `total` equal to their count `n` and `ultimos`
equal to the last `min n 5` of them, the most recent first; with seven numbers
`ultimos` has five entries and `total` is 7. -/
theorem c9_stats_reloj_estricto (cs : List Llamada) (ns : List Int)
    (hns : cs.map (fun c => c.numero) = ns.map some)
    (hok : ∀ r ∈ (reservarTodos [] cs).1, r.ok = true)
    (hreloj : (cs.map (fun c => c.ahora)).Sorted (fun a b => a < b)) :
    ns.Nodup ∧
    (∃ s, EsStats (reservarTodos [] cs).2 s) ∧
    (∀ s, EsStats (reservarTodos [] cs).2 s →
      s.total = ns.length ∧ s.ultimos = ns.reverse.take 5 ∧
      s.ultimos.length = min ns.length 5 ∧
      (ns.length = 7 → s.total = 7 ∧ s.ultimos.length = 5)) := by
  obtain ⟨h1, h2, h3⟩ := reservarTodos_ok cs [] ns hns hok
  simp only [numeros, List.map_nil, List.nil_append] at h1 h2
  have hnd : ns.Nodup := by
    have := h3 (by simp [numeros])
    simpa [numeros, h1] using this
  have hlen : (reservarTodos [] cs).2.length = ns.length := by
    have := congrArg List.length h1
    simpa using this
  have hsorted : ((reservarTodos [] cs).2.map (fun r => r.fecha)).Sorted
      (fun a b => a < b) := by
    rw [h2]; exact hreloj
  have hiff := ordenFechaDesc_iff (reservarTodos [] cs).2 hsorted
  refine ⟨hnd, ⟨_, (reservarTodos [] cs).2.reverse, (hiff _).mpr rfl, rfl⟩, ?_⟩
  rintro s ⟨orden, ho, rfl⟩
  have ho2 := (hiff orden).mp ho
  subst ho2
  have hu : numeros ((reservarTodos [] cs).2.reverse.take 5) = ns.reverse.take 5 := by
    simp only [numeros, List.map_take, List.map_reverse, h1]
  have hl : (ns.reverse.take 5).length = min ns.length 5 := by
    simp [List.length_take, Nat.min_comm]
  refine ⟨hlen, hu, ?_, ?_⟩
  · simp only [hu, hl]
  · intro h7
    simp only [hu, hl, hlen, h7]
    exact ⟨trivial, rfl⟩

/-- C9 at seven reservations, of the numbers 1 to 7 at the instants 1 to 7:
`total` is 7 and `ultimos` is `[7, 6, 5, 4, 3]`. -/
theorem c9_stats_reloj_estricto_witness :
    (∀ r ∈ (reservarTodos [] sieteLlamadas).1, r.ok = true) ∧
    (sieteLlamadas.map (fun c => c.ahora)).Sorted (fun a b => a < b) ∧
    (∀ s, EsStats (reservarTodos [] sieteLlamadas).2 s →
      s.total = 7 ∧ s.ultimos = [7, 6, 5, 4, 3]) := by
  have hok : ∀ r ∈ (reservarTodos [] sieteLlamadas).1, r.ok = true := by decide
  have hreloj : (sieteLlamadas.map (fun c => c.ahora)).Sorted (fun a b => a < b) := by
    decide
  refine ⟨hok, hreloj, ?_⟩
  intro s hs
  have h := (c9_stats_reloj_estricto sieteLlamadas [1, 2, 3, 4, 5, 6, 7] rfl hok
    hreloj).2.2 s hs
  exact ⟨h.1, h.2.1⟩

/-- C9, against the claim: the numbers 1 and 2 are reserved in order into the
empty table, both calls succeed and both rows get the same `fecha`; then
`obtenerStats` may return `ultimos = [1, 2]`, the older number first, and may
return `ultimos = [2, 1]`: the statement orders by `fecha` alone and a tie is
broken by nothing. -/
theorem c9_empate_sin_orden :
    (reservarTodos [] dosLlamadasEmpate).1 = [resultadoOk, resultadoOk] ∧
    EsStats (reservarTodos [] dosLlamadasEmpate).2 { total := 2, ultimos := [1, 2] } ∧
    EsStats (reservarTodos [] dosLlamadasEmpate).2 { total := 2, ultimos := [2, 1] } ∧
    ¬ (∀ s, EsStats (reservarTodos [] dosLlamadasEmpate).2 s → s.ultimos = [2, 1]) := by
  have h1 : EsStats (reservarTodos [] dosLlamadasEmpate).2
      { total := 2, ultimos := [1, 2] } :=
    ⟨(reservarTodos [] dosLlamadasEmpate).2, by decide, by decide⟩
  have h2 : EsStats (reservarTodos [] dosLlamadasEmpate).2
      { total := 2, ultimos := [2, 1] } :=
    ⟨(reservarTodos [] dosLlamadasEmpate).2.reverse, by decide, by decide⟩
  refine ⟨by decide, h1, h2, ?_⟩
  intro h
  exact absurd (h _ h1) (by decide)

/-! ## The blocked numbers under registration (claim C10) -/

theorem eq_of_strict_of_mem_iff (l₁ l₂ : List Int)
    (h₁ : l₁.Sorted (fun a b => a < b)) (h₂ : l₂.Sorted (fun a b => a < b))
    (h : ∀ y, y ∈ l₁ ↔ y ∈ l₂) : l₁ = l₂ := by
  have n₁ : l₁.Nodup := h₁.imp (fun hab => ne_of_lt hab)
  have n₂ : l₂.Nodup := h₂.imp (fun hab => ne_of_lt hab)
  have hp : l₁.Perm l₂ := (List.perm_ext_iff_of_nodup n₁ n₂).mpr h
  have s₁ : l₁.Sorted (fun a b => a ≤ b) := h₁.imp (fun hab => le_of_lt hab)
  have s₂ : l₂.Sorted (fun a b => a ≤ b) := h₂.imp (fun hab => le_of_lt hab)
  exact List.eq_of_perm_of_sorted hp s₁ s₂

theorem correr_sin_registro (cfg : Config) (ps : List Peticion) :
    ∀ s : Estado, (∀ p ∈ ps, esRegistro p = false) → (correr cfg s ps).tabla = s.tabla := by
  induction ps with
  | nil => intro s _; rfl
  | cons p ps ih =>
    intro s h
    have hc : correr cfg s (p :: ps) = correr cfg (paso cfg s p) ps := rfl
    rw [hc, ih (paso cfg s p) (fun q hq => h q (List.mem_cons_of_mem p hq))]
    have hp := h p (List.mem_cons_self p ps)
    cases p with
    | registrar f a n tel => simp [esRegistro] at hp
    | bloqueados f => rfl
    | cajero => rfl
    | ganador => rfl
    | stats => rfl

/-- C10, as the code has it, for the cashiers of the repository and every static
blocklist.  (i) Two requests `GET /api/bloqueados` whose reads of the store have
the same outcome, with no registration between them, get the same response.
(ii) On every table, for every number `m` that is a value of the column type
`INT` and is not in the current list of blocked numbers, a registration of `m`
whose contact holds no character U+0000 and whose statement reaches the engine
answers `ok: true`, and the next list of blocked numbers is the previous one
with `m` inserted at its place: strictly ascending, holding `m` and the previous
numbers and nothing else, one entry longer.  (iii) Registering a statically
blocked number, with any contact and any outcome of the transport, leaves the
list as it was, strictly ascending.  (iv) With the blocklist `[73, 44, 87, 93]`,
registering 10 answers `ok: true`, the list becomes `[10, 44, 73, 87, 93]`, and
registering 10 again answers `ok: false` with `mensaje: 'Número ya ocupado'`. -/
theorem c10_bloqueados_registro (fijos : List Int) (s : Estado) (m : Int) (ahora : Nat)
    (tel : Option String)
    (hr : ¬ (m < int4Min ∨ int4Max < m))
    (hm : m ∉ (getBloqueados (configCon fijos) none s.tabla).bloqueados)
    (ht : textoValido (telefonoDe tel) = true) :
    (∀ (falla : Option Falla) (ps : List Peticion), (∀ p ∈ ps, esRegistro p = false) →
      getBloqueados (configCon fijos) falla (correr (configCon fijos) s ps).tabla =
        getBloqueados (configCon fijos) falla s.tabla) ∧
    (postRegistrar (configCon fijos) none ahora s (some m) tel).1 =
      { ok := true, mensaje := none } ∧
    (getBloqueados (configCon fijos) none
      (postRegistrar (configCon fijos) none ahora s (some m) tel).2.tabla).bloqueados.Sorted
      (fun a b => a < b) ∧
    (∀ y : Int,
      y ∈ (getBloqueados (configCon fijos) none
        (postRegistrar (configCon fijos) none ahora s (some m) tel).2.tabla).bloqueados ↔
        y = m ∨ y ∈ (getBloqueados (configCon fijos) none s.tabla).bloqueados) ∧
    (getBloqueados (configCon fijos) none
      (postRegistrar (configCon fijos) none ahora s (some m) tel).2.tabla).bloqueados =
      (getBloqueados (configCon fijos) none s.tabla).bloqueados.orderedInsert
        (fun a b => a ≤ b) m ∧
    (getBloqueados (configCon fijos) none
      (postRegistrar (configCon fijos) none ahora s (some m) tel).2.tabla).bloqueados.length =
      (getBloqueados (configCon fijos) none s.tabla).bloqueados.length + 1 ∧
    (∀ (k : Int) (falla : Option Falla) (otro : Option String), k ∈ fijos →
      (getBloqueados (configCon fijos) none
        (postRegistrar (configCon fijos) falla ahora s (some k) otro).2.tabla).bloqueados =
        (getBloqueados (configCon fijos) none s.tabla).bloqueados ∧
      (getBloqueados (configCon fijos) none
        (postRegistrar (configCon fijos) falla ahora s (some k) otro).2.tabla).bloqueados.Sorted
        (fun a b => a < b)) ∧
    ((postRegistrar config none 1 inicial (some 10) (some "+5491112223333")).1 =
        { ok := true, mensaje := none } ∧
      (getBloqueados config none
        (postRegistrar config none 1 inicial (some 10)
          (some "+5491112223333")).2.tabla).bloqueados = [10, 44, 73, 87, 93] ∧
      (postRegistrar config none 2
        (postRegistrar config none 1 inicial (some 10) (some "+5491112223333")).2
        (some 10) (some "+5491112223333")).1 =
        { ok := false, mensaje := some "Número ya ocupado" }) := by
  have hfijos : (configCon fijos).numerosFijos = fijos := rfl
  have hm2 : m ∉ fijos ∧ m ∉ numeros s.tabla := by
    rw [getBloqueados_none, hfijos] at hm
    have := mt (mem_unionBloqueados fijos (numeros s.tabla) m).mpr hm
    exact ⟨fun h => this (Or.inl h), fun h => this (Or.inr h)⟩
  have hlibre := reservarNumero_libre ahora s.tabla m hr hm2.2 (telefonoDe tel)
    (cajeroAnterior (configCon fijos) s.indiceCajero) ht
    (cajeroAnterior_configCon fijos s.indiceCajero)
  have hmem : ∀ y : Int,
      y ∈ (getBloqueados (configCon fijos) none
        (postRegistrar (configCon fijos) none ahora s (some m) tel).2.tabla).bloqueados ↔
        y = m ∨ y ∈ (getBloqueados (configCon fijos) none s.tabla).bloqueados := by
    intro y
    rw [postRegistrar_eq, hlibre]
    simp only [getBloqueados_none, mem_unionBloqueados, numeros_append]
    simp only [numeros, List.map_cons, List.map_nil, List.mem_append, List.mem_singleton]
    tauto
  have hsorted := getBloqueados_strict (configCon fijos)
    (postRegistrar (configCon fijos) none ahora s (some m) tel).2.tabla
  have hold := getBloqueados_strict (configCon fijos) s.tabla
  have hins : (getBloqueados (configCon fijos) none
      (postRegistrar (configCon fijos) none ahora s (some m) tel).2.tabla).bloqueados =
      (getBloqueados (configCon fijos) none s.tabla).bloqueados.orderedInsert
        (fun a b => a ≤ b) m := by
    have hnd : ((getBloqueados (configCon fijos) none s.tabla).bloqueados.orderedInsert
        (fun a b => a ≤ b) m).Nodup := by
      rw [(List.perm_orderedInsert (fun a b : Int => a ≤ b) m _).nodup_iff, List.nodup_cons]
      exact ⟨hm, hold.imp (fun hab => ne_of_lt hab)⟩
    have hs : ((getBloqueados (configCon fijos) none s.tabla).bloqueados.orderedInsert
        (fun a b => a ≤ b) m).Sorted (fun a b => a ≤ b) :=
      List.Sorted.orderedInsert m _ (hold.imp (fun hab => le_of_lt hab))
    apply eq_of_strict_of_mem_iff _ _ hsorted
    · exact (List.Pairwise.and hs hnd).imp (fun h => lt_of_le_of_ne h.1 h.2)
    · intro y
      rw [hmem y, (List.perm_orderedInsert (fun a b : Int => a ≤ b) m _).mem_iff,
        List.mem_cons]
  refine ⟨?_, ?_, hsorted, hmem, hins, ?_, ?_, ?_⟩
  · intro falla ps hps
    rw [correr_sin_registro (configCon fijos) ps s hps]
  · rw [postRegistrar_eq, hlibre]
    simp [resultadoOk]
  · rw [hins, List.orderedInsert_length]
  · intro k falla otro hk
    refine ⟨?_, getBloqueados_strict (configCon fijos) _⟩
    apply eq_of_strict_of_mem_iff _ _ (getBloqueados_strict (configCon fijos) _) hold
    intro y
    simp only [getBloqueados_none, mem_unionBloqueados, hfijos]
    rw [postRegistrar_eq]
    simp only
    rcases reservarNumero_casos falla ahora s.tabla (some k) (telefonoDe otro)
        (cajeroAnterior (configCon fijos) s.indiceCajero) with
      ⟨h, _⟩ | ⟨n, _, _, _, _, _, _, h⟩ | ⟨n, _, hn, _, _, _, _, h⟩
    · rw [h]
    · rw [h]
    · rw [h]
      have hkn : k = n := Option.some.inj hn
      subst hkn
      simp only [numeros, List.map_append, List.map_cons, List.map_nil, List.mem_append,
        List.mem_singleton]
      constructor
      · rintro (h | h | h)
        · exact Or.inl h
        · exact Or.inr h
        · exact Or.inl (h ▸ hk)
      · rintro (h | h)
        · exact Or.inl h
        · exact Or.inr (Or.inl h)
  · decide

/-- C10 at the configuration of the repository: from the initial state the
number 10 is free, its registration answers `ok: true`, and the list becomes the
previous one with 10 inserted. -/
theorem c10_bloqueados_registro_witness :
    ¬ ((10 : Int) < int4Min ∨ int4Max < 10) ∧
    (10 : Int) ∉ (getBloqueados (configCon [73, 44, 87, 93]) none inicial.tabla).bloqueados ∧
    textoValido (telefonoDe (some "+5491112223333")) = true ∧
    (postRegistrar (configCon [73, 44, 87, 93]) none 1 inicial (some 10)
        (some "+5491112223333")).1 = { ok := true, mensaje := none } ∧
    (getBloqueados (configCon [73, 44, 87, 93]) none
      (postRegistrar (configCon [73, 44, 87, 93]) none 1 inicial (some 10)
        (some "+5491112223333")).2.tabla).bloqueados =
      (getBloqueados (configCon [73, 44, 87, 93]) none inicial.tabla).bloqueados.orderedInsert
        (fun a b => a ≤ b) 10 :=
  have h := c10_bloqueados_registro [73, 44, 87, 93] inicial 10 1 (some "+5491112223333")
    (by decide) (by decide) (by decide)
  ⟨by decide, by decide, by decide, h.2.1, h.2.2.2.2.1⟩

/-- C10, against the claim, at the configuration of the repository and its
initial state.  The numbers 2147483648 and 11 are not in the list of blocked
numbers; yet the registration of 2147483648 answers `ok: false` without
`mensaje`, the column `numero` being of type `INT`; so does the registration of
11 with a contact that holds U+0000, and the registration of 11 whose statement
does not reach the engine; and the list stays as it was.  And two requests for
the list with no registration between them get different responses when the
read of the store succeeds for one and fails for the other. -/
theorem c10_registro_rechazado :
    (2147483648 : Int) ∉ (getBloqueados config none inicial.tabla).bloqueados ∧
    (postRegistrar config none 1 inicial (some 2147483648) (some "+5491112223333")).1 =
      { ok := false, mensaje := none } ∧
    (getBloqueados config none
      (postRegistrar config none 1 inicial (some 2147483648)
        (some "+5491112223333")).2.tabla).bloqueados = [44, 73, 87, 93] ∧
    (11 : Int) ∉ (getBloqueados config none inicial.tabla).bloqueados ∧
    (postRegistrar config none 1 inicial (some 11) (some contactoNul)).1 =
      { ok := false, mensaje := none } ∧
    (getBloqueados config none
      (postRegistrar config none 1 inicial (some 11)
        (some contactoNul)).2.tabla).bloqueados = [44, 73, 87, 93] ∧
    (postRegistrar config (some Falla.connRefused) 1 inicial (some 11)
        (some "+5491112223333")).1 = { ok := false, mensaje := none } ∧
    (getBloqueados config none
      (postRegistrar config (some Falla.connRefused) 1 inicial (some 11)
        (some "+5491112223333")).2.tabla).bloqueados = [44, 73, 87, 93] ∧
    getBloqueados config none inicial.tabla ≠
      getBloqueados config (some Falla.connRefused) inicial.tabla := by
  decide

end Promo
